import Mathlib

/-!
# Shallow embedding of the zhdclite analytical scoring subsystem

This file embeds, in Lean 4 over exact rational arithmetic (`ℚ` for Python
floats, `Nat`/`Int` for Python ints, `String` for Python strings with `""`
standing for SQL `NULL`/Python `None`), the three analysis engines of the
repository and the report assembler:

* `src/src/recording_quality_engine.py` (`RecordingQualityEngine`),
* `src/src/anomaly_detection_engine.py` (`AnomalyDetectionEngine`),
* `src/src/consumption_profile_engine.py` (`ConsumptionProfileEngine`),
* `src/src/analysis_report_generator.py` (`_generate_comprehensive_assessment`),
* the relevant read-only queries of `src/src/household_analysis_dal.py`
  (`get_statistical_benchmarks`, row shapes of the other queries).

Python `round(x, 2)` is modelled by `round2` (round-half-up on exact
rationals; Python's float rounding is banker's, the difference lies inside
the floating-point tolerance the specification allows).  Where the source
compares a coefficient of variation `np.std(xs)/np.mean(xs)` against a
threshold `t`, the embedding compares the (exactly computable) population
variance against `t² · mean²`; for positive mean and nonnegative threshold
both tests are equivalent, and this avoids irrational square roots.

Presentation-only payloads of the source (human-readable description
strings, suggestion texts, timestamps) are not modelled; every numeric
field, label, branch condition and list structure the claims depend on is.
-/

namespace Zhdclite

/-- Python `round(x, 2)`: round to two decimal places.  On exact rationals
this is `round (100·x) / 100` with `round` the Mathlib round
(half away from zero upward); see the file header for the tie-breaking
caveat. -/
def round2 (q : ℚ) : ℚ := ((round (q * 100) : ℤ) : ℚ) / 100

/-- Association-list lookup with string keys: models Python `dict.get(k)`
(`none` = key absent).  Dicts built by the embedding have unique keys, so
first-match lookup agrees with the Python dict. -/
def lookupKey (k : String) : List (String × β) → Option β
  | [] => none
  | (k', v) :: rest => if k' = k then some v else lookupKey k rest

/-- Python `d[k] = v` on a string-keyed dict: replace the binding if the key
is present (keeping its position), append it otherwise. -/
def dictInsert (k : String) (v : β) : List (String × β) → List (String × β)
  | [] => [(k, v)]
  | (k', v') :: rest => if k' = k then (k, v) :: rest else (k', v') :: dictInsert k v rest

/-- First-occurrence deduplication, mirroring the key order of a Python dict
built by insertion (`dict` preserves first-insertion order of keys). -/
def dedupFirstAux [DecidableEq α] : List α → List α → List α
  | [], _ => []
  | x :: xs, seen => if x ∈ seen then dedupFirstAux xs seen else x :: dedupFirstAux xs (x :: seen)

def dedupFirst [DecidableEq α] (l : List α) : List α := dedupFirstAux l []

/-! ## Data model (row shapes returned by `household_analysis_dal.py`) -/

/-- One row of `get_household_income_expense_data`: the fields of the ledger
record the engines read (`id`, `日期`, `收支类型`, `编码`, `项目名称`, `金额`).
`code = ""` models a SQL `NULL`/empty code (both falsy in the Python
`if not code` tests); `itemName = ""` likewise models a missing name. -/
structure LedgerRecord where
  id : Nat
  date : String
  itype : Nat
  code : String
  itemName : String
  amount : ℚ
  deriving DecidableEq

/-- One row of `get_household_monthly_summary` (fields the engines read).
Year and month are zero-padded numeric strings in the store and are
compared numerically everywhere they are used; they are embedded as `Nat`.
The DAL always sets `收支差额 = 收入总额 - 支出总额`. -/
structure MonthlySummary where
  year : Nat
  month : Nat
  income : ℚ
  expense : ℚ
  deriving DecidableEq

/-- `收支差额` as the DAL computes it. -/
def MonthlySummary.balance (m : MonthlySummary) : ℚ := m.income - m.expense

/-- One row of `get_household_category_summary` (fields the engines read):
code prefix (`编码前缀`, first two characters), income/expense type
(`收支类型`), total amount (`总金额`). -/
structure CategorySummary where
  code2 : String
  itype : Nat
  total : ℚ
  deriving DecidableEq

/-- The aggregate block of `get_household_recording_patterns`: raw counts;
the derived ratios of the source dict are the definitions below. -/
structure RecordingPattern where
  totalRecords : Nat
  recordingDays : Nat
  integerCount : Nat
  noteCount : Nat
  codedCount : Nat
  monthEndCount : Nat
  itemVariety : Nat
  deriving DecidableEq

/-- `整数金额比例 = 整数金额数 / max(总记录数 or 1, 1)`. -/
def RecordingPattern.integerRate (p : RecordingPattern) : ℚ :=
  (p.integerCount : ℚ) / (max p.totalRecords 1 : ℕ)

/-- `备注使用率 = 有备注数 / max(总记录数 or 1, 1)`. -/
def RecordingPattern.noteRate (p : RecordingPattern) : ℚ :=
  (p.noteCount : ℚ) / (max p.totalRecords 1 : ℕ)

/-- `编码完整率 = 已编码数 / max(总记录数 or 1, 1)`. -/
def RecordingPattern.codingRate (p : RecordingPattern) : ℚ :=
  (p.codedCount : ℚ) / (max p.totalRecords 1 : ℕ)

/-- `月末集中记账比例 = 月末记账数 / max(总记录数 or 1, 1)`. -/
def RecordingPattern.monthEndRate (p : RecordingPattern) : ℚ :=
  (p.monthEndCount : ℚ) / (max p.totalRecords 1 : ℕ)

/-- One entry of the `get_statistical_benchmarks` dict: record count
(`记录数`), mean (`平均金额`), standard deviation (`标准差`), min/max
(`最小金额`/`最大金额`). -/
structure Benchmark where
  code2 : String
  itype : Nat
  recordCount : Nat
  mean : ℚ
  std : ℚ
  amin : ℚ
  amax : ℚ
  deriving DecidableEq

/-- `get_household_basic_info` fields the profile engine reads. -/
structure BasicInfo where
  householdCode : String
  headName : String
  size : Nat
  deriving DecidableEq

/-! ## Recording quality engine (`recording_quality_engine.py`) -/

/-- `RecordingQualityEngine._evaluate_recording_frequency`: 0 on an empty
monthly summary; otherwise tier the average records per month
(`总记录数 / len(monthly_summary)`), with a linear `avg × 6` tail floored
at 0, and cap the result at 100. -/
def evaluateRecordingFrequency (p : RecordingPattern) (ms : List MonthlySummary) : ℚ :=
  if ms = [] then 0
  else
    let avg : ℚ := (p.totalRecords : ℚ) / (ms.length : ℚ)
    let score : ℚ :=
      if avg ≥ 30 then 95
      else if avg ≥ 20 then 85
      else if avg ≥ 15 then 75
      else if avg ≥ 10 then 65
      else max 0 (avg * 6)
    min 100 score

/-- Sort key of `sorted(monthly_summary, key=lambda x: (x['年份'], x['月份']))`
(the zero-padded year/month strings compare exactly like the numbers they
encode). -/
def monthlyLE (a b : MonthlySummary) : Prop :=
  a.year < b.year ∨ (a.year = b.year ∧ a.month ≤ b.month)

instance : DecidableRel monthlyLE := fun a b => by
  unfold monthlyLE
  infer_instance

/-- Python's stable `sorted` by `(年份, 月份)`, as an insertion sort
(the grouped rows carry pairwise-distinct keys, so any sorting algorithm
for this total preorder produces the same list). -/
def sortMonthly (ms : List MonthlySummary) : List MonthlySummary :=
  List.insertionSort monthlyLE ms

/-- The whole-month difference `(curr_year - prev_year) * 12 +
(curr_month - prev_month)` between two consecutive sorted entries. -/
def monthDiff (a b : MonthlySummary) : ℤ :=
  ((b.year : ℤ) - (a.year : ℤ)) * 12 + ((b.month : ℤ) - (a.month : ℤ))

/-- The `gaps` list of `_evaluate_recording_continuity`: for each
consecutive sorted pair with `month_diff > 1`, the entry `month_diff - 1`. -/
def continuityGaps (ms : List MonthlySummary) : List ℤ :=
  let sorted := sortMonthly ms
  (sorted.zip sorted.tail).filterMap fun ab =>
    let d := monthDiff ab.1 ab.2
    if d > 1 then some (d - 1) else none

/-- `RecordingQualityEngine._evaluate_recording_continuity`: 0 on empty
input, 60 for a single month, 100 with no gaps, otherwise
`max(60, 100 - min(40, total_gap_months * 5))`. -/
def evaluateRecordingContinuity (ms : List MonthlySummary) : ℚ :=
  if ms = [] then 0
  else if ms.length = 1 then 60
  else
    let gaps := continuityGaps ms
    if gaps = [] then 100
    else max 60 (100 - min 40 ((gaps.sum : ℚ) * 5))

/-- `day = int(str(record['日期'])[-2:])` guarded by `len(date_str) >= 8`;
a parse failure (`except: continue`) yields `none`.  Python `int` would
also accept a leading sign; the store's ISO dates end in two digits, where
both parses agree. -/
def dayOfRecord (r : LedgerRecord) : Option Nat :=
  if r.date.length ≥ 8 then (r.date.takeRight 2).toNat? else none

/-- Increment the bucket of day `d` in the day-of-month histogram
(`date_distribution[day] = date_distribution.get(day, 0) + 1`). -/
def bumpDay (d : Nat) : List (Nat × Nat) → List (Nat × Nat)
  | [] => [(d, 1)]
  | (k, c) :: rest => if k = d then (k, c + 1) :: rest else (k, c) :: bumpDay d rest

/-- The day-of-month histogram of `_evaluate_time_distribution`, in
first-appearance key order as a Python dict. -/
def dateDistribution (data : List LedgerRecord) : List (Nat × Nat) :=
  data.foldl (fun acc r =>
    match dayOfRecord r with
    | some d => bumpDay d acc
    | none => acc) []

/-- Population mean of a list of naturals, as a rational. -/
def natMean (l : List Nat) : ℚ := ((l.map (Nat.cast)).sum : ℚ) / (l.length : ℚ)

/-- Population variance (`np.std(l)²`) of a list of naturals. -/
def natVariance (l : List Nat) : ℚ :=
  ((l.map (fun c => ((c : ℚ) - natMean l) ^ 2)).sum) / (l.length : ℚ)

/-- `RecordingQualityEngine._evaluate_time_distribution`: start at 100,
subtract 30/15 for a month-end (day 25–31) share above 0.5/0.3, subtract
20/10 when the day-bucket coefficient of variation `np.std/np.mean`
exceeds 2/1 (compared here as variance against `4·mean²`/`mean²`; the
bucket counts are positive, so the mean is positive and the comparisons
are equivalent), floor at 0.  Empty data or no parsable date gives 0. -/
def evaluateTimeDistribution (data : List LedgerRecord) : ℚ :=
  if data = [] then 0
  else
    let dist := dateDistribution data
    if dist = [] then 0
    else
      let counts := dist.map Prod.snd
      let total : ℚ := ((counts.map (Nat.cast)).sum : ℚ)
      let monthEnd : ℚ := (((dist.filter fun p => 25 ≤ p.1 ∧ p.1 ≤ 31).map
        (fun p => (p.2 : ℚ))).sum)
      let monthEndShare := monthEnd / total
      let endPenalty : ℚ :=
        if monthEndShare > 1/2 then 30 else if monthEndShare > 3/10 then 15 else 0
      let cvPenalty : ℚ :=
        if counts.length > 1 then
          if natVariance counts > 4 * natMean counts ^ 2 then 20
          else if natVariance counts > natMean counts ^ 2 then 10
          else 0
        else 0
      max 0 (100 - endPenalty - cvPenalty)

/-- `RecordingQualityEngine._evaluate_data_completeness`:
`min(40, 备注使用率×100) + min(40, 编码完整率×100) + min(20, 种类数×2)`,
capped at 100. -/
def evaluateDataCompleteness (p : RecordingPattern) : ℚ :=
  min 100 (min 40 (p.noteRate * 100) + min 40 (p.codingRate * 100) +
    min 20 ((p.itemVariety : ℚ) * 2))

/-- `record['金额'] == int(record['金额'])`: the amount is integral
(`int` truncates, and a rational equals its truncation iff its denominator
is 1). -/
def isIntegerAmount (q : ℚ) : Bool := q.den = 1

/-- Number of integral amounts in a record list. -/
def countIntegerAmounts (data : List LedgerRecord) : Nat :=
  (data.filter fun r => isIntegerAmount r.amount).length

/-- `integer_ratio = integer_amounts / total_records` of
`_evaluate_recording_consistency` / `_detect_pattern_anomalies`. -/
def integerShare (data : List LedgerRecord) : ℚ :=
  (countIntegerAmounts data : ℚ) / (data.length : ℚ)

/-- The consistency deduction for integral amounts: 25 above ratio 0.8,
else 15 above 0.6, else 0 (both comparisons strict). -/
def integerSharePenalty (r : ℚ) : ℚ :=
  if r > 4/5 then 25 else if r > 3/5 then 15 else 0

/-- The duplicate key `(record['日期'], record['金额'], record['项目名称'])`. -/
def recKey (r : LedgerRecord) : String × ℚ × String := (r.date, r.amount, r.itemName)

/-- The `seen_records`/`duplicate_count` loop: each record whose key was
already seen counts once. -/
def duplicateCountAux : List LedgerRecord → List (String × ℚ × String) → Nat
  | [], _ => 0
  | r :: rest, seen =>
    if recKey r ∈ seen then 1 + duplicateCountAux rest seen
    else duplicateCountAux rest (recKey r :: seen)

def duplicateCount (data : List LedgerRecord) : Nat := duplicateCountAux data []

/-- The `common_amounts` list `[100, 200, 500, 1000, 2000, 5000]`. -/
def commonAmounts : List ℚ := [100, 200, 500, 1000, 2000, 5000]

/-- `RecordingQualityEngine._evaluate_recording_consistency`: start at 100;
subtract the integral-amount deduction; subtract
`min(20, duplicate_ratio × 100)` when duplicates exist; subtract 15 when,
among positive amounts, the share of `common_amounts` exceeds 0.3; floor
at 0.  Empty data gives 0. -/
def evaluateRecordingConsistency (data : List LedgerRecord) : ℚ :=
  if data = [] then 0
  else
    let total : ℚ := (data.length : ℚ)
    let s1 : ℚ := 100 - integerSharePenalty (integerShare data)
    let dups := duplicateCount data
    let s2 : ℚ := if dups > 0 then s1 - min 20 (((dups : ℚ) / total) * 100) else s1
    let amounts := (data.filter fun r => r.amount > 0).map LedgerRecord.amount
    let s3 : ℚ :=
      if amounts = [] then s2
      else
        let patternShare := ((amounts.filter fun a => a ∈ commonAmounts).length : ℚ) /
          (amounts.length : ℚ)
        if patternShare > 3/10 then s2 - 15 else s2
    max 0 s3

/-- The quality levels `优秀/良好/一般/较差/很差`. -/
inductive QualityLevel where
  | excellent
  | good
  | fair
  | poor
  | veryPoor
  deriving DecidableEq

/-- `RecordingQualityEngine._get_quality_level`: ≥90 优秀, ≥80 良好,
≥70 一般, ≥60 较差, else 很差. -/
def getQualityLevel (t : ℚ) : QualityLevel :=
  if t ≥ 90 then .excellent
  else if t ≥ 80 then .good
  else if t ≥ 70 then .fair
  else if t ≥ 60 then .poor
  else .veryPoor

/-- The five sub-scores (`各项评分`). -/
structure QualityScores where
  frequency : ℚ
  continuity : ℚ
  timeDistribution : ℚ
  completeness : ℚ
  consistency : ℚ
  deriving DecidableEq

/-- The five sub-scores as `evaluate_household_quality` computes them. -/
def qualityScores (p : RecordingPattern) (data : List LedgerRecord)
    (ms : List MonthlySummary) : QualityScores where
  frequency := evaluateRecordingFrequency p ms
  continuity := evaluateRecordingContinuity ms
  timeDistribution := evaluateTimeDistribution data
  completeness := evaluateDataCompleteness p
  consistency := evaluateRecordingConsistency data

/-- `total_score = sum(scores[key] * weights[key])` with weights
记账频率 0.25, 记账连续性 0.20, 时间分布 0.20, 数据完整性 0.20,
记录一致性 0.15. -/
def weightedTotal (s : QualityScores) : ℚ :=
  s.frequency * (25/100) + s.continuity * (20/100) + s.timeDistribution * (20/100) +
    s.completeness * (20/100) + s.consistency * (15/100)

/-- Result of `evaluate_household_quality`: either the `数据不足`
early-return (total 0, no sub-scores) or an evaluated result carrying the
level, the returned `总评分 = round(total_score, 2)` and the sub-scores. -/
inductive QualityResult where
  | insufficientData
  | evaluated (level : QualityLevel) (total : ℚ) (scores : QualityScores)
  deriving DecidableEq

/-- `RecordingQualityEngine.evaluate_household_quality`, as a function of
the fetched snapshots (`pattern = none` models the empty dict the DAL
returns when the query found nothing). -/
def evaluateHouseholdQuality (pattern : Option RecordingPattern)
    (data : List LedgerRecord) (ms : List MonthlySummary) : QualityResult :=
  match pattern with
  | none => .insufficientData
  | some p =>
    if p.totalRecords = 0 then .insufficientData
    else
      let scores := qualityScores p data ms
      let total := weightedTotal scores
      .evaluated (getQualityLevel total) (round2 total) scores

/-! ## Anomaly detection engine (`anomaly_detection_engine.py`) -/

/-- The closed anomaly-type taxonomy (`异常类型` labels of the source:
极端金额异常, 金额异常, 罕见类别, 收支严重倒挂, 收支倒挂, 零收入有支出,
整数金额过多, 零钱记录缺失, 疑似重复记录, 单日记账过多). -/
inductive AnomalyType where
  | extremeAmount
  | amountAnomaly
  | rareCategory
  | severeImbalance
  | imbalance
  | zeroIncomeWithExpense
  | excessIntegerAmounts
  | missingSmallChange
  | suspectedDuplicate
  | excessDailyVolume
  deriving DecidableEq

/-- `严重程度`: 高 / 中 / 低. -/
inductive Severity where
  | high
  | medium
  | low
  deriving DecidableEq

/-- An anomaly record (`记录ID`, `异常类型`, `严重程度`); the human-readable
description and the record/benchmark snapshot fields are presentation-only
and not modelled. -/
structure AnomalyRecord where
  recId : String
  atype : AnomalyType
  severity : Severity
  deriving DecidableEq

/-- The benchmark dict key `f"{code[:2]}_{income_type}"`. -/
def benchKey (code2 : String) (itype : Nat) : String := code2 ++ "_" ++ toString itype

/-- The per-record body of `_detect_amount_anomalies`: skip uncoded or
non-positive-amount records and records without a benchmark; flag
极端金额异常/高 outside `[mean − 3·std, mean + 3·std]`, else 金额异常/中
outside `[mean − 2·std, mean + 2·std]`, else nothing. -/
def classifyAmountAnomaly (benchmarks : List (String × Benchmark))
    (r : LedgerRecord) : Option AnomalyRecord :=
  if r.code = "" ∨ r.amount ≤ 0 then none
  else
    match lookupKey (benchKey (r.code.take 2) r.itype) benchmarks with
    | none => none
    | some b =>
      if r.amount < b.mean - 3 * b.std ∨ r.amount > b.mean + 3 * b.std then
        some ⟨toString r.id, .extremeAmount, .high⟩
      else if r.amount < b.mean - 2 * b.std ∨ r.amount > b.mean + 2 * b.std then
        some ⟨toString r.id, .amountAnomaly, .medium⟩
      else none

/-- `AnomalyDetectionEngine._detect_amount_anomalies` (per-record results in
input order). -/
def detectAmountAnomalies (data : List LedgerRecord)
    (benchmarks : List (String × Benchmark)) : List AnomalyRecord :=
  data.filterMap (classifyAmountAnomaly benchmarks)

/-- `AnomalyDetectionEngine._detect_category_anomalies`: each coded record
whose benchmark exists with `记录数 < 50` yields 罕见类别/低.  (The
`category_counts` dict the source builds first is never read afterwards.) -/
def detectCategoryAnomalies (data : List LedgerRecord)
    (benchmarks : List (String × Benchmark)) : List AnomalyRecord :=
  data.filterMap fun r =>
    if r.code = "" then none
    else
      match lookupKey (benchKey (r.code.take 2) r.itype) benchmarks with
      | none => none
      | some b =>
        if b.recordCount < 50 then some ⟨toString r.id, .rareCategory, .low⟩
        else none

/-- The synthetic id `f"{年份}-{月份}"` of a balance anomaly. -/
def monthId (m : MonthlySummary) : String := toString m.year ++ "-" ++ toString m.month

/-- `AnomalyDetectionEngine._detect_balance_anomalies`: per month,
收支严重倒挂/高 when `income > 0` and `expense/income > 2`, else
收支倒挂/中 when `income > 0` and `expense/income > 1.5`; independently
零收入有支出/中 when `income == 0` and `expense > 0`. -/
def detectBalanceAnomalies (ms : List MonthlySummary) : List AnomalyRecord :=
  ms.flatMap fun m =>
    (if m.income > 0 ∧ m.expense / m.income > 2 then
      [⟨monthId m, .severeImbalance, .high⟩]
    else if m.income > 0 ∧ m.expense / m.income > 3/2 then
      [⟨monthId m, .imbalance, .medium⟩]
    else []) ++
    (if m.income = 0 ∧ m.expense > 0 then
      [⟨monthId m, .zeroIncomeWithExpense, .medium⟩]
    else [])

/-- `AnomalyDetectionEngine._detect_pattern_anomalies`: the four aggregate
rules, emitted in source order (integral-amount excess, missing small
change, duplicate groups in first-occurrence key order, high-volume days
in first-occurrence date order). -/
def detectPatternAnomalies (data : List LedgerRecord) : List AnomalyRecord :=
  if data = [] then []
  else
    let total := data.length
    let integerPart : List AnomalyRecord :=
      if integerShare data > 4/5 then [⟨"PATTERN_001", .excessIntegerAmounts, .medium⟩]
      else []
    let smallCount := (data.filter fun r => 0 < r.amount ∧ r.amount < 10).length
    let smallPart : List AnomalyRecord :=
      if (smallCount : ℚ) / (total : ℚ) < 1/20 ∧ total > 50 then
        [⟨"PATTERN_002", .missingSmallChange, .low⟩]
      else []
    let dupPart : List AnomalyRecord :=
      (dedupFirst (data.map recKey)).filterMap fun k =>
        match data.filter (fun r => recKey r = k) with
        | g1 :: _ :: _ => some ⟨"DUP_" ++ toString g1.id, .suspectedDuplicate, .medium⟩
        | _ => none
    let freqPart : List AnomalyRecord :=
      (dedupFirst (data.map LedgerRecord.date)).filterMap fun d =>
        if (data.filter fun r => r.date = d).length > 20 then
          some ⟨"FREQ_" ++ d, .excessDailyVolume, .low⟩
        else none
    integerPart ++ smallPart ++ dupPart ++ freqPart

/-- Count of anomalies at a given severity (`severity_stats`). -/
def severityCount (anomalies : List AnomalyRecord) (s : Severity) : Nat :=
  (anomalies.filter fun a => a.severity = s).length

/-- `AnomalyDetectionEngine._calculate_anomaly_score`: 0 when there are no
records; otherwise `round(min(100, (10·高 + 5·中 + 2·低) / (总记录数 · 10)
× 100), 2)`. -/
def calculateAnomalyScore (high med low total : Nat) : ℚ :=
  if total = 0 then 0
  else
    let weighted : ℚ := (high : ℚ) * 10 + (med : ℚ) * 5 + (low : ℚ) * 2
    let maxPossible : ℚ := (total : ℚ) * 10
    round2 (min 100 (weighted / maxPossible * 100))

/-- The `异常统计` block (numeric fields). -/
structure AnomalyStats where
  totalRecords : Nat
  totalAnomalies : Nat
  anomalyShare : ℚ
  high : Nat
  med : Nat
  low : Nat
  score : ℚ
  deriving DecidableEq

/-- `AnomalyDetectionEngine._calculate_anomaly_statistics`. -/
def calculateAnomalyStatistics (anomalies : List AnomalyRecord)
    (data : List LedgerRecord) : AnomalyStats where
  totalRecords := data.length
  totalAnomalies := anomalies.length
  anomalyShare := (anomalies.length : ℚ) / (max data.length 1 : ℕ)
  high := severityCount anomalies .high
  med := severityCount anomalies .medium
  low := severityCount anomalies .low
  score := calculateAnomalyScore (severityCount anomalies .high)
    (severityCount anomalies .medium) (severityCount anomalies .low) data.length

/-- Result of `detect_household_anomalies`: the `异常记录`/`异常统计`-empty
early return on empty data, or the anomaly list with its statistics. -/
inductive AnomalyReport where
  | noData
  | report (anomalies : List AnomalyRecord) (stats : AnomalyStats)
  deriving DecidableEq

/-- `AnomalyDetectionEngine.detect_household_anomalies` as a function of the
fetched snapshots: concatenate the four detectors and attach statistics. -/
def detectHouseholdAnomalies (data : List LedgerRecord)
    (ms : List MonthlySummary) (benchmarks : List (String × Benchmark)) :
    AnomalyReport :=
  if data = [] then .noData
  else
    let anomalies := detectAmountAnomalies data benchmarks ++
      detectCategoryAnomalies data benchmarks ++
      detectBalanceAnomalies ms ++
      detectPatternAnomalies data
    .report anomalies (calculateAnomalyStatistics anomalies data)

/-! ## Statistical benchmarks query (`household_analysis_dal.py`,
`get_statistical_benchmarks`) -/

/-- One row of the source table `调查点台账合并` as the benchmark SQL reads
it (`code`, `type`, `money`); `code = ""` models SQL `NULL`. -/
structure SrcRow where
  code : String
  itype : Nat
  money : ℚ
  deriving DecidableEq

/-- Rows satisfying `t.code IS NOT NULL AND t.money > 0`. -/
def qualifyingRows (rows : List SrcRow) : List SrcRow :=
  rows.filter fun r => r.code ≠ "" ∧ r.money > 0

/-- Sum of a rational list (SQL `SUM`/`AVG` numerator). -/
def moneySum (l : List ℚ) : ℚ := l.sum

/-- SQL `MIN` over a nonempty group (0 on an empty one, which the `HAVING`
clause rules out). -/
def moneyMin : List ℚ → ℚ
  | [] => 0
  | x :: xs => xs.foldl min x

/-- SQL `MAX` over a nonempty group (0 on an empty one). -/
def moneyMax : List ℚ → ℚ
  | [] => 0
  | x :: xs => xs.foldl max x

/-- `get_statistical_benchmarks('all')`: group the qualifying rows by
`(SUBSTR(code,1,2), type)`, keep groups with `COUNT(*) >= 10`, and build
the benchmark dict keyed `f"{前缀}_{类型}"` with `AVG(money)` as 平均金额,
the SQL constant `0` as 标准差 (SQLite has no `STDEV`; the source selects
`0 AS 标准差`), and `MIN`/`MAX` of `money`. -/
def getStatisticalBenchmarks (rows : List SrcRow) : List (String × Benchmark) :=
  (dedupFirst ((qualifyingRows rows).map fun r => (r.code.take 2, r.itype))).filterMap
    fun g =>
      let grp := (qualifyingRows rows).filter fun r =>
        r.code.take 2 = g.1 ∧ r.itype = g.2
      if grp.length ≥ 10 then
        let amounts := grp.map SrcRow.money
        some (benchKey g.1 g.2,
          { code2 := g.1
            itype := g.2
            recordCount := grp.length
            mean := moneySum amounts / (grp.length : ℚ)
            std := 0
            amin := moneyMin amounts
            amax := moneyMax amounts })
      else none

/-! ## Consumption profile engine (`consumption_profile_engine.py`) -/

/-- Population mean of a rational list. -/
def qMean (l : List ℚ) : ℚ := l.sum / (l.length : ℚ)

/-- Population variance (`np.std(l)²`) of a rational list. -/
def qVariance (l : List ℚ) : ℚ :=
  ((l.map fun e => (e - qMean l) ^ 2).sum) / (l.length : ℚ)

/-- The per-category ratio dict (`ratios[prefix] = 总金额 / total`), built
by Python-dict insertion over the rows. -/
def categoryRates (rows : List CategorySummary) (total : ℚ) : List (String × ℚ) :=
  rows.foldl (fun acc item => dictInsert item.code2 (item.total / total) acc) []

/-- `ratios.get(prefix, 0)`. -/
def rateOf (d : List (String × ℚ)) (p : String) : ℚ := (lookupKey p d).getD 0

/-- Python `keyword in item_name` (substring containment). -/
def containsKw (s kw : String) : Bool := decide (kw.toList <:+: s.toList)

/-- `any(keyword in name for keyword in kws)`. -/
def anyKeyword (s : String) (kws : List String) : Bool := kws.any (containsKw s)

/-- `ConsumptionProfileEngine._analyze_consumption_structure`. -/
def analyzeConsumptionStructure (cs : List CategorySummary) : List String :=
  let expense := cs.filter fun c => c.itype = 2
  let totalExpense := (expense.map CategorySummary.total).sum
  if totalExpense ≤ 0 then ["数据不足"]
  else
    let rates := categoryRates expense totalExpense
    let tags :=
      (if rateOf rates "31" > 2/5 then ["基本生活型"]
       else if rateOf rates "31" < 1/5 then ["发展享受型"] else []) ++
      (if rateOf rates "35" > 1/5 then ["交通依赖型"] else []) ++
      (if rateOf rates "33" > 3/10 then ["住房高压型"] else []) ++
      (if rateOf rates "36" > 3/20 then ["教育投资型"] else []) ++
      (if rateOf rates "37" > 3/20 then ["健康关注型"] else [])
    if tags = [] then ["均衡消费型"] else tags

/-- `ConsumptionProfileEngine._analyze_consumption_level`.  The
coefficient-of-variation tests `cv < 0.2` / `cv > 0.5` (with `cv = 0` when
the mean is not positive) are embedded as variance comparisons, equivalent
for positive mean. -/
def analyzeConsumptionLevel (ms : List MonthlySummary) (b : BasicInfo) : List String :=
  if ms = [] then ["数据不足"]
  else
    let totalExpense := (ms.map MonthlySummary.expense).sum
    let householdSize : Nat := if b.size = 0 then 1 else b.size
    let perCapita := totalExpense / (ms.length : ℚ) / (householdSize : ℚ)
    let levelTag : String :=
      if perCapita > 3000 then "高消费户"
      else if perCapita > 1500 then "理性消费户"
      else if perCapita > 800 then "节俭储蓄型"
      else "低消费户"
    let stability : List String :=
      if ms.length ≥ 3 then
        let expenses := ms.map MonthlySummary.expense
        if qMean expenses > 0 then
          if qVariance expenses < qMean expenses ^ 2 * (1/25) then ["消费稳定型"]
          else if qVariance expenses > qMean expenses ^ 2 * (1/4) then ["消费波动型"]
          else []
        else ["消费稳定型"]
      else []
    levelTag :: stability

/-- `ConsumptionProfileEngine._analyze_financial_health`. -/
def analyzeFinancialHealth (ms : List MonthlySummary) : List String :=
  if ms = [] then ["数据不足"]
  else
    let totalIncome := (ms.map MonthlySummary.income).sum
    let totalExpense := (ms.map MonthlySummary.expense).sum
    let savingsTags : List String :=
      if totalIncome > 0 then
        let rate := (totalIncome - totalExpense) / totalIncome
        if rate > 3/10 then ["高储蓄率家庭"]
        else if rate > 1/10 then ["稳健储蓄家庭"]
        else if rate > -(1/10) then ["月光家庭"]
        else ["债务驱动型"]
      else []
    let deficitMonths := (ms.filter fun m => m.balance < 0).length
    let balanceTags : List String :=
      if (deficitMonths : ℚ) / (ms.length : ℚ) > 1/2 then ["收支失衡型"]
      else if deficitMonths = 0 then ["收支平衡型"]
      else []
    savingsTags ++ balanceTags

/-- `ConsumptionProfileEngine._analyze_income_structure`. -/
def analyzeIncomeStructure (cs : List CategorySummary) : List String :=
  let income := cs.filter fun c => c.itype = 1
  let totalIncome := (income.map CategorySummary.total).sum
  if totalIncome ≤ 0 then ["数据不足"]
  else
    let rates := categoryRates income totalIncome
    let maxRate : ℚ :=
      match rates.map Prod.snd with
      | [] => 0
      | v :: vs => vs.foldl max v
    let tags :=
      (if rateOf rates "21" > 3/5 then ["工资主导型"] else []) ++
      (if rateOf rates "22" > 1/2 then ["经营主导型"] else []) ++
      (if rateOf rates "23" > 3/10 then ["财产投资驱动型"] else []) ++
      (if maxRate < 3/5 ∧ rates.length ≥ 2 then ["多元收入型"] else [])
    if tags = [] then ["单一收入型"] else tags

/-- `ConsumptionProfileEngine._analyze_lifestyle`. -/
def analyzeLifestyle (cs : List CategorySummary) (data : List LedgerRecord) :
    List String :=
  let expense := cs.filter fun c => c.itype = 2
  let totalExpense := (expense.map CategorySummary.total).sum
  if totalExpense ≤ 0 then ["数据不足"]
  else
    let rates := categoryRates expense totalExpense
    let commMatch := data.any fun it =>
      it.itype = 2 ∧ it.code ≠ "" ∧ it.code.startsWith "35" ∧
        anyKeyword it.itemName ["通信", "网络", "流量", "话费", "宽带"]
    let tags :=
      (if rateOf rates "36" > 3/20 then ["家庭成长型"] else []) ++
      (if rateOf rates "38" > 1/10 then ["人情社交型"] else []) ++
      (if rateOf rates "35" > 3/20 ∧ commMatch then ["数字生活家"] else []) ++
      (if rateOf rates "34" > 2/25 then ["便捷生活追求者"] else []) ++
      (if rateOf rates "32" > 2/25 then ["品质生活型"] else [])
    if tags = [] then ["朴素生活型"] else tags

/-- `ConsumptionProfileEngine._analyze_consumption_preferences`. -/
def analyzeConsumptionPreferences (cs : List CategorySummary)
    (data : List LedgerRecord) : List String :=
  let expense := cs.filter fun c => c.itype = 2
  let totalExpense := (expense.map CategorySummary.total).sum
  if totalExpense ≤ 0 then ["数据不足"]
  else
    let rates := categoryRates expense totalExpense
    let foodTags : List String :=
      if rateOf rates "31" > 7/20 then
        let foodItems := data.filter fun it =>
          it.itype = 2 ∧ it.code ≠ "" ∧ it.code.startsWith "31"
        let uniqueNames := (dedupFirst ((foodItems.map LedgerRecord.itemName).filter
          fun n => n ≠ "")).length
        if uniqueNames > 10 then ["美食爱好者"] else []
      else []
    let petItems := data.filter fun it =>
      it.itype = 2 ∧ it.itemName ≠ "" ∧
        anyKeyword it.itemName ["宠物", "猫", "狗", "鸟", "鱼", "宠"]
    let petTags : List String :=
      if petItems ≠ [] ∧ (petItems.map LedgerRecord.amount).sum > 500 then ["爱宠家庭"]
      else []
    let carMatch := data.any fun it =>
      it.itype = 2 ∧ it.code ≠ "" ∧ it.code.startsWith "35" ∧
        anyKeyword it.itemName ["汽车", "车", "油费", "停车", "保险", "维修"]
    let decoMatch := data.any fun it =>
      it.itype = 2 ∧ it.code ≠ "" ∧ it.code.startsWith "33" ∧
        anyKeyword it.itemName ["装修", "家具", "电器", "建材"]
    let entMatch := data.any fun it =>
      it.itype = 2 ∧ it.code ≠ "" ∧ it.code.startsWith "36" ∧
        anyKeyword it.itemName ["娱乐", "旅游", "电影", "游戏", "运动"]
    let tags :=
      foodTags ++
      (if rateOf rates "37" > 3/25 then ["健康养生派"] else []) ++
      petTags ++
      (if rateOf rates "35" > 3/20 ∧ carMatch then ["汽车生活族"] else []) ++
      (if rateOf rates "33" > 1/5 ∧ decoMatch then ["居家装修族"] else []) ++
      (if rateOf rates "36" > 1/10 ∧ entMatch then ["文化娱乐型"] else [])
    if tags = [] then ["实用主义型"] else tags

/-- `ConsumptionProfileEngine._analyze_consumption_habits`.  The source
reads `item.get('项目名称', …)` and `item.get('记录数', 0)` from the
category-summary rows, but the DAL provides the keys `编码前缀` and
`记账笔数` instead; every `count` is therefore the default `0`, the
`count > 0` guard never fires, and the returned habits dict is always
empty. -/
def analyzeConsumptionHabits (_cs : List CategorySummary) : List (String × ℚ) := []

/-- Add `v` to the bucket of label `k`
(`structure[category_name] += amount`). -/
def addAmount (k : String) (v : ℚ) : List (String × ℚ) → List (String × ℚ)
  | [] => [(k, v)]
  | (k', v') :: rest =>
    if k' = k then (k', v' + v) :: rest else (k', v') :: addAmount k v rest

/-- The fixed 8-prefix expense taxonomy of
`_analyze_detailed_consumption_structure`. -/
def stdCategories : List (String × String) :=
  [("31", "食品烟酒"), ("32", "衣着"), ("33", "居住"), ("34", "生活用品及服务"),
   ("35", "交通通信"), ("36", "教育文化娱乐"), ("37", "医疗保健"),
   ("38", "其他用品及服务")]

/-- The ranked consumption-structure breakdown: category name, amount,
percentage of the total. -/
structure DetailedBreakdown where
  categories : List (String × ℚ × ℚ)
  totalExpenditure : ℚ
  categoryCount : Nat
  deriving DecidableEq

/-- Descending-amount order used by
`sorted(structure.items(), key=lambda x: x[1], reverse=True)`. -/
def amountGE (a b : String × ℚ) : Prop := b.2 ≤ a.2

instance : DecidableRel amountGE := fun a b => by
  unfold amountGE
  infer_instance

/-- `ConsumptionProfileEngine._analyze_detailed_consumption_structure`:
seed every standard label plus `其他消费` with 0, add each positive-amount
expense row to its label (unknown prefixes to `其他消费`), drop zero
buckets, sort descending by amount, and attach percentages. -/
def analyzeDetailedStructure (cs : List CategorySummary) : DetailedBreakdown :=
  let init : List (String × ℚ) :=
    (stdCategories.map fun c => (c.2, (0 : ℚ))) ++ [("其他消费", 0)]
  let expense := cs.filter fun c => c.itype = 2
  let filled := expense.foldl (fun acc item =>
    if item.total ≤ 0 then acc
    else addAmount ((lookupKey item.code2 stdCategories).getD "其他消费") item.total acc)
    init
  let nonzero := filled.filter fun p => p.2 > 0
  let total := (nonzero.map Prod.snd).sum
  let sortedCats := List.insertionSort amountGE nonzero
  { categories := sortedCats.map fun p =>
      (p.1, p.2, if total > 0 then p.2 / total * 100 else 0)
    totalExpenditure := total
    categoryCount := nonzero.length }

/-- The profile payload (`消费结构型标签` … `消费结构`). -/
structure Profile where
  structureTags : List String
  levelTags : List String
  healthTags : List String
  incomeTags : List String
  lifestyleTags : List String
  preferenceTags : List String
  habits : List (String × ℚ)
  breakdown : DetailedBreakdown
  deriving DecidableEq

/-- Result of `generate_household_profile`: `empty` models the `{}` returned
on missing basic info or absent income/expense data (and on a caught
exception, which the total embedding has no source of). -/
inductive ProfileResult where
  | empty
  | profile (p : Profile)
  deriving DecidableEq

/-- `ConsumptionProfileEngine.generate_household_profile`, as a function of
the fetched snapshots. -/
def generateHouseholdProfile (basic : Option BasicInfo) (data : List LedgerRecord)
    (cs : List CategorySummary) (ms : List MonthlySummary) : ProfileResult :=
  match basic with
  | none => .empty
  | some b =>
    if data = [] then .empty
    else
      .profile
        { structureTags := analyzeConsumptionStructure cs
          levelTags := analyzeConsumptionLevel ms b
          healthTags := analyzeFinancialHealth ms
          incomeTags := analyzeIncomeStructure cs
          lifestyleTags := analyzeLifestyle cs data
          preferenceTags := analyzeConsumptionPreferences cs data
          habits := analyzeConsumptionHabits cs
          breakdown := analyzeDetailedStructure cs }

/-! ## Report generator (`analysis_report_generator.py`) -/

/-- `quality_assessment.get('总评分', 0)` (the `数据不足` early return also
carries `总评分: 0`). -/
def qualityTotalOf : QualityResult → ℚ
  | .insufficientData => 0
  | .evaluated _ total _ => total

/-- `anomaly_detection.get('异常统计', {}).get('异常评分', 0)` (the empty
early return carries an empty stats dict, hence 0). -/
def anomalyScoreOf : AnomalyReport → ℚ
  | .noData => 0
  | .report _ stats => stats.score

/-- The inline level thresholds of `_generate_comprehensive_assessment`
(≥90 优秀, ≥80 良好, ≥70 一般, ≥60 较差, else 很差). -/
def comprehensiveLevel (x : ℚ) : QualityLevel :=
  if x ≥ 90 then .excellent
  else if x ≥ 80 then .good
  else if x ≥ 70 then .fair
  else if x ≥ 60 then .poor
  else .veryPoor

/-- `AnalysisReportGenerator._generate_comprehensive_assessment`, numeric
core: `综合评分 = round(质量总评分 × 0.7 + (100 − 异常评分) × 0.3, 2)` and
the level of the unrounded composite.  (The merged suggestion strings are
presentation-only and not modelled.) -/
def generateComprehensiveAssessment (q : QualityResult) (a : AnomalyReport) :
    ℚ × QualityLevel :=
  let composite := qualityTotalOf q * (7/10) + (100 - anomalyScoreOf a) * (3/10)
  (round2 composite, comprehensiveLevel composite)

/-! ## Batch evaluation (`evaluate_batch_quality` and the parallel batch
variants of the other engines) -/

/-- The batch loop shared by `evaluate_batch_quality`,
`detect_batch_anomalies` and `generate_batch_profiles`: per household code,
run the single-household evaluation; `f code = none` models both a raised
exception (caught and logged, the household skipped) and a falsy result
(the `if result:` guard); `some r` is inserted into the result dict. -/
def batchCollect (f : String → Option β) (codes : List String) :
    List (String × β) :=
  codes.foldl (fun acc c =>
    match f c with
    | some r => dictInsert c r acc
    | none => acc) []

/-- `RecordingQualityEngine.evaluate_batch_quality`. -/
def evaluateBatchQuality (f : String → Option QualityResult)
    (codes : List String) : List (String × QualityResult) :=
  batchCollect f codes

/-! ## Snapshot wrappers (single-household engines as functions of the
fetched read snapshots; see §5 of the specification) -/

/-- All data a single-household engine invocation fetches from the DAL. -/
structure Snapshot where
  basicInfo : Option BasicInfo
  records : List LedgerRecord
  categorySummary : List CategorySummary
  monthlySummary : List MonthlySummary
  benchmarks : List (String × Benchmark)
  pattern : Option RecordingPattern
  deriving DecidableEq

def profileOfSnapshot (s : Snapshot) : ProfileResult :=
  generateHouseholdProfile s.basicInfo s.records s.categorySummary s.monthlySummary

def anomaliesOfSnapshot (s : Snapshot) : AnomalyReport :=
  detectHouseholdAnomalies s.records s.monthlySummary s.benchmarks

def qualityOfSnapshot (s : Snapshot) : QualityResult :=
  evaluateHouseholdQuality s.pattern s.records s.monthlySummary

/-! ## Concrete instances used by the claim theorems and witnesses -/

/-- Witness data for C1: a pattern block with 3 records over one month. -/
def c1pattern : RecordingPattern := ⟨3, 3, 1, 1, 2, 0, 3⟩

/-- Witness data for C1: three records with fractional amounts on distinct days. -/
def c1data : List LedgerRecord :=
  [⟨1, "2024-01-05", 2, "310101", "米", 21/2⟩,
   ⟨2, "2024-01-10", 1, "210001", "工资", 81/4⟩,
   ⟨3, "2024-01-15", 2, "330001", "水电", 123/4⟩]

/-- Witness data for C1: a single monthly summary row. -/
def c1ms : List MonthlySummary := [⟨2024, 1, 81/4, 42⟩]

/-- Witness data for C3: one benchmark dict entry (mean 50, std 10). -/
def c3bench : List (String × Benchmark) := [("31_2", ⟨"31", 2, 100, 50, 10, 0, 100⟩)]

/-- The benchmark value stored in `c3bench`. -/
def c3benchmark : Benchmark := ⟨"31", 2, 100, 50, 10, 0, 100⟩

/-- Witness data for C3: a coded record whose amount 95 lies beyond mean + 3·std = 80. -/
def c3record : LedgerRecord := ⟨9, "2024-01-02", 2, "310105", "食品", 95⟩

/-- Witness data for C4: ten qualifying source rows sharing code prefix 31, type 2, amount 5. -/
def c4rows : List SrcRow :=
  [⟨"310101", 2, 5⟩, ⟨"310102", 2, 5⟩, ⟨"310103", 2, 5⟩, ⟨"310104", 2, 5⟩,
   ⟨"310105", 2, 5⟩, ⟨"310106", 2, 5⟩, ⟨"310107", 2, 5⟩, ⟨"310108", 2, 5⟩,
   ⟨"310109", 2, 5⟩, ⟨"310110", 2, 5⟩]

/-- The benchmark `getStatisticalBenchmarks c4rows` produces: mean 5 and the constant std 0. -/
def c4benchmark : Benchmark := ⟨"31", 2, 10, 5, 0, 5, 5⟩

/-- Witness data for C4: a coded record whose amount 7 differs from the benchmark mean 5. -/
def c4record : LedgerRecord := ⟨7, "2024-01-05", 2, "310199", "菜", 7⟩

/-- Scenario input for C5: a quality result with 总评分 85. -/
def c5qualityEx : QualityResult :=
  .evaluated .good 85 ⟨85, 85, 85, 85, 85⟩

/-- Scenario input for C5: an anomaly report with 异常评分 10 (one High anomaly among 10 records). -/
def c5anomalyEx : AnomalyReport :=
  .report [⟨"1", .extremeAmount, .high⟩] ⟨10, 1, 1/10, 1, 0, 0, 10⟩

/-- Scenario input for C6: months 2024-01, 2024-03, 2024-04 — one absent month between the first two. -/
def continuityScenario : List MonthlySummary :=
  [⟨2024, 1, 100, 50⟩, ⟨2024, 3, 100, 50⟩, ⟨2024, 4, 100, 50⟩]

/-- Boundary input for C9: five records, four with integral amounts (ratio exactly 0.8), no duplicates, no round-number amounts. -/
def consistencyExample : List LedgerRecord :=
  [⟨1, "2024-01-01", 2, "310101", "甲", 1⟩,
   ⟨2, "2024-01-02", 2, "310102", "乙", 2⟩,
   ⟨3, "2024-01-03", 2, "310103", "丙", 3⟩,
   ⟨4, "2024-01-04", 2, "310104", "丁", 4⟩,
   ⟨5, "2024-01-05", 2, "310105", "戊", 11/2⟩]

/-- Witness evaluator for C7: succeeds on household "A", models a raised-and-caught exception on every other code. -/
def c7f : String → Option QualityResult :=
  fun c => if c = "A" then some .insufficientData else none

/-- Witness snapshot for C10. -/
def c10snapshot : Snapshot := ⟨none, [], [], [], [], none⟩

/-! ## General lemmas -/

theorem round2_le_round2 {a b : ℚ} (h : a ≤ b) : round2 a ≤ round2 b := by
  unfold round2
  have hi : round (a * 100) ≤ round (b * 100) := by
    rw [round_eq, round_eq]
    exact Int.floor_mono (by linarith)
  have : ((round (a * 100) : ℤ) : ℚ) ≤ ((round (b * 100) : ℤ) : ℚ) := by
    exact_mod_cast hi
  linarith

theorem round2_nonneg {a : ℚ} (h : 0 ≤ a) : 0 ≤ round2 a := by
  have h0 : round2 (0 : ℚ) = 0 := by
    unfold round2
    norm_num
  calc (0 : ℚ) = round2 0 := h0.symm
    _ ≤ round2 a := round2_le_round2 h

theorem round2_le_hundred {a : ℚ} (h : a ≤ 100) : round2 a ≤ 100 := by
  have h0 : round2 (100 : ℚ) = 100 := by
    unfold round2
    rw [show ((100 : ℚ) * 100) = ((10000 : ℤ) : ℚ) by norm_num, round_intCast]
    norm_num
  calc round2 a ≤ round2 100 := round2_le_round2 h
    _ = 100 := h0

/-- A successful dict lookup yields an entry of the dict. -/
theorem lookupKey_mem {β : Type} {l : List (String × β)} {k : String} {v : β}
    (h : lookupKey k l = some v) : (k, v) ∈ l := by
  induction l with
  | nil => simp [lookupKey] at h
  | cons p rest ih =>
    obtain ⟨k', v'⟩ := p
    by_cases hk : k' = k
    · rw [lookupKey, if_pos hk] at h
      subst hk
      simp only [Option.some.injEq] at h
      subst h
      exact List.mem_cons_self _ _
    · rw [lookupKey, if_neg hk] at h
      exact List.mem_cons_of_mem _ (ih h)

/-- The frequency sub-score lies in `[0, 100]`. -/
theorem frequency_bounds (p : RecordingPattern) (ms : List MonthlySummary) :
    0 ≤ evaluateRecordingFrequency p ms ∧ evaluateRecordingFrequency p ms ≤ 100 := by
  unfold evaluateRecordingFrequency
  split
  · norm_num
  · refine ⟨le_min (by norm_num) ?_, min_le_left _ _⟩
    split_ifs <;> norm_num

/-- Every entry of the gaps list is at least 1 (only `month_diff > 1` pairs contribute `month_diff - 1`). -/
theorem continuityGaps_one_le {ms : List MonthlySummary} {g : ℤ}
    (hg : g ∈ continuityGaps ms) : 1 ≤ g := by
  unfold continuityGaps at hg
  simp only [List.mem_filterMap] at hg
  obtain ⟨ab, _, h2⟩ := hg
  by_cases hd : monthDiff ab.1 ab.2 > 1
  · simp only [if_pos hd, Option.some.injEq] at h2
    omega
  · simp only [if_neg hd] at h2
    exact absurd h2 (by simp)

/-- The total missing-month count is nonnegative. -/
theorem continuityGaps_sum_nonneg (ms : List MonthlySummary) :
    0 ≤ (continuityGaps ms).sum :=
  List.sum_nonneg fun g hg => le_trans (by norm_num) (continuityGaps_one_le hg)

/-- The continuity sub-score lies in `[0, 100]`. -/
theorem continuity_bounds (ms : List MonthlySummary) :
    0 ≤ evaluateRecordingContinuity ms ∧ evaluateRecordingContinuity ms ≤ 100 := by
  unfold evaluateRecordingContinuity
  split
  · norm_num
  · split
    · norm_num
    · simp only []
      split
      · norm_num
      · have hs : (0 : ℚ) ≤ ((continuityGaps ms).sum : ℚ) := by
          exact_mod_cast continuityGaps_sum_nonneg ms
        constructor
        · exact le_trans (by norm_num) (le_max_left _ _)
        · refine max_le (by norm_num) ?_
          have : (0 : ℚ) ≤ min 40 (((continuityGaps ms).sum : ℚ) * 5) :=
            le_min (by norm_num) (by positivity)
          linarith

/-- The time-distribution sub-score lies in `[0, 100]`. -/
theorem timeDistribution_bounds (data : List LedgerRecord) :
    0 ≤ evaluateTimeDistribution data ∧ evaluateTimeDistribution data ≤ 100 := by
  unfold evaluateTimeDistribution
  split
  · norm_num
  · simp only []
    split
    · norm_num
    · constructor
      · exact le_max_left 0 _
      · refine max_le (by norm_num) ?_
        split_ifs <;> norm_num

/-- The completeness sub-score lies in `[0, 100]`. -/
theorem completeness_bounds (p : RecordingPattern) :
    0 ≤ evaluateDataCompleteness p ∧ evaluateDataCompleteness p ≤ 100 := by
  unfold evaluateDataCompleteness
  have h1 : (0:ℚ) ≤ min 40 (p.noteRate * 100) := by
    refine le_min (by norm_num) ?_
    unfold RecordingPattern.noteRate
    positivity
  have h2 : (0:ℚ) ≤ min 40 (p.codingRate * 100) := by
    refine le_min (by norm_num) ?_
    unfold RecordingPattern.codingRate
    positivity
  have h3 : (0:ℚ) ≤ min 20 ((p.itemVariety : ℚ) * 2) := by
    refine le_min (by norm_num) ?_
    positivity
  exact ⟨le_min (by norm_num) (by linarith), min_le_left _ _⟩

/-- The consistency sub-score lies in `[0, 100]`. -/
theorem consistency_bounds (data : List LedgerRecord) :
    0 ≤ evaluateRecordingConsistency data ∧ evaluateRecordingConsistency data ≤ 100 := by
  unfold evaluateRecordingConsistency
  split
  · norm_num
  · simp only []
    constructor
    · exact le_max_left 0 _
    · have hpen : 0 ≤ integerSharePenalty (integerShare data) := by
        unfold integerSharePenalty
        split_ifs <;> norm_num
      have hdup : (0:ℚ) ≤ min 20 (((duplicateCount data : ℚ) / (data.length : ℚ)) * 100) := by
        refine le_min (by norm_num) ?_
        positivity
      refine max_le (by norm_num) ?_
      split_ifs <;> linarith

/-- Every benchmark the DAL query builds carries the SQL constant 0 as its 标准差 field. -/
theorem getStatisticalBenchmarks_std_zero (rows : List SrcRow) (k : String)
    (b : Benchmark) (hmem : (k, b) ∈ getStatisticalBenchmarks rows) : b.std = 0 := by
  unfold getStatisticalBenchmarks at hmem
  rw [List.mem_filterMap] at hmem
  obtain ⟨g, _, heq⟩ := hmem
  dsimp only at heq
  split_ifs at heq
  simp only [Option.some.injEq, Prod.mk.injEq] at heq
  rw [← heq.2]

/-- A dict insert grows the dict by at most one entry. -/
theorem dictInsert_length_le {β : Type} (k : String) (v : β) (l : List (String × β)) :
    (dictInsert k v l).length ≤ l.length + 1 := by
  induction l with
  | nil => simp [dictInsert]
  | cons p rest ih =>
    obtain ⟨k', v'⟩ := p
    by_cases hk : k' = k
    · simp [dictInsert, hk]
    · simp only [dictInsert, if_neg hk, List.length_cons]
      omega

/-- An entry of `dictInsert k v l` is the new binding or an entry of `l`. -/
theorem mem_dictInsert {β : Type} {k' : String} {v' : β} {k : String} {v : β}
    {l : List (String × β)} (h : (k', v') ∈ dictInsert k v l) :
    (k' = k ∧ v' = v) ∨ (k', v') ∈ l := by
  induction l with
  | nil =>
    left
    simpa [dictInsert] using h
  | cons p rest ih =>
    obtain ⟨k2, v2⟩ := p
    by_cases hk : k2 = k
    · rw [dictInsert, if_pos hk] at h
      rcases List.mem_cons.mp h with h1 | h1
      · left
        simpa using h1
      · right
        exact List.mem_cons_of_mem _ h1
    · rw [dictInsert, if_neg hk] at h
      rcases List.mem_cons.mp h with h1 | h1
      · right
        rw [h1]
        exact List.mem_cons_self _ _
      · rcases ih h1 with h2 | h2
        · left
          exact h2
        · right
          exact List.mem_cons_of_mem _ h2

/-- The batch fold grows the accumulator by at most one entry per processed code. -/
theorem batchCollect_length_aux {β : Type} (f : String → Option β) (codes : List String) :
    ∀ acc : List (String × β),
      (codes.foldl (fun acc c =>
        match f c with
        | some r => dictInsert c r acc
        | none => acc) acc).length ≤ acc.length + codes.length := by
  induction codes with
  | nil =>
    intro acc
    simp
  | cons c rest ih =>
    intro acc
    rw [List.foldl_cons]
    cases hf : f c with
    | none =>
      calc _ ≤ acc.length + rest.length := ih acc
        _ ≤ acc.length + (c :: rest).length := by simp
    | some r =>
      calc _ ≤ (dictInsert c r acc).length + rest.length := ih _
        _ ≤ acc.length + 1 + rest.length := by
            have := dictInsert_length_le c r acc
            omega
        _ = acc.length + (c :: rest).length := by simp [Nat.add_comm, Nat.add_assoc, Nat.add_left_comm]

/-- Every entry the batch fold adds comes from a processed code whose evaluation succeeded. -/
theorem batchCollect_mem_aux {β : Type} (f : String → Option β) (codes : List String) :
    ∀ (acc : List (String × β)) (k : String) (v : β),
      (k, v) ∈ codes.foldl (fun acc c =>
        match f c with
        | some r => dictInsert c r acc
        | none => acc) acc →
      (k, v) ∈ acc ∨ (k ∈ codes ∧ f k = some v) := by
  induction codes with
  | nil =>
    intro acc k v h
    left
    simpa using h
  | cons c rest ih =>
    intro acc k v h
    rw [List.foldl_cons] at h
    cases hf : f c with
    | none =>
      rw [hf] at h
      rcases ih acc k v h with h1 | h1
      · left
        exact h1
      · right
        exact ⟨List.mem_cons_of_mem _ h1.1, h1.2⟩
    | some r =>
      rw [hf] at h
      rcases ih (dictInsert c r acc) k v h with h1 | h1
      · rcases mem_dictInsert h1 with ⟨hk, hv⟩ | h2
        · right
          subst hk
          subst hv
          exact ⟨List.mem_cons_self _ _, hf⟩
        · left
          exact h2
      · right
        exact ⟨List.mem_cons_of_mem _ h1.1, h1.2⟩

/-! ## The claims -/

/-- **C1**: for a household whose recording-pattern total record count is
nonzero, `evaluate_household_quality` returns 总评分 equal to
`round(Frequency×0.25 + Continuity×0.20 + TimeDistribution×0.20 +
Completeness×0.20 + Consistency×0.15, 2)` (the weights summing to 1), each
of the five sub-scores lies in `[0, 100]`, and hence the returned total
lies in `[0, 100]`. -/
theorem c1_quality_total_weighted_sum_in_bounds (p : RecordingPattern) (data : List LedgerRecord)
    (ms : List MonthlySummary) (h : p.totalRecords ≠ 0) :
    evaluateHouseholdQuality (some p) data ms =
      .evaluated (getQualityLevel (weightedTotal (qualityScores p data ms)))
        (round2 (weightedTotal (qualityScores p data ms)))
        (qualityScores p data ms) ∧
    weightedTotal (qualityScores p data ms) =
      (qualityScores p data ms).frequency * (25/100) +
        (qualityScores p data ms).continuity * (20/100) +
        (qualityScores p data ms).timeDistribution * (20/100) +
        (qualityScores p data ms).completeness * (20/100) +
        (qualityScores p data ms).consistency * (15/100) ∧
    ((25:ℚ)/100 + 20/100 + 20/100 + 20/100 + 15/100) = 1 ∧
    (0 ≤ (qualityScores p data ms).frequency ∧ (qualityScores p data ms).frequency ≤ 100) ∧
    (0 ≤ (qualityScores p data ms).continuity ∧ (qualityScores p data ms).continuity ≤ 100) ∧
    (0 ≤ (qualityScores p data ms).timeDistribution ∧
      (qualityScores p data ms).timeDistribution ≤ 100) ∧
    (0 ≤ (qualityScores p data ms).completeness ∧ (qualityScores p data ms).completeness ≤ 100) ∧
    (0 ≤ (qualityScores p data ms).consistency ∧ (qualityScores p data ms).consistency ≤ 100) ∧
    0 ≤ round2 (weightedTotal (qualityScores p data ms)) ∧
    round2 (weightedTotal (qualityScores p data ms)) ≤ 100 := by
  have hf := frequency_bounds p ms
  have hc := continuity_bounds ms
  have ht := timeDistribution_bounds data
  have hcm := completeness_bounds p
  have hcs := consistency_bounds data
  have hS0 : 0 ≤ weightedTotal (qualityScores p data ms) := by
    unfold weightedTotal qualityScores at *
    dsimp only at *
    nlinarith [hf.1, hc.1, ht.1, hcm.1, hcs.1]
  have hS1 : weightedTotal (qualityScores p data ms) ≤ 100 := by
    unfold weightedTotal qualityScores at *
    dsimp only at *
    nlinarith [hf.2, hc.2, ht.2, hcm.2, hcs.2]
  refine ⟨?_, rfl, by norm_num, hf, hc, ht, hcm, hcs, round2_nonneg hS0, round2_le_hundred hS1⟩
  simp only [evaluateHouseholdQuality]
  rw [if_neg h]

/-- Witness for C1 at a concrete household snapshot. -/
theorem c1_quality_witness :
    c1pattern.totalRecords ≠ 0 ∧
    evaluateHouseholdQuality (some c1pattern) c1data c1ms =
      .evaluated (getQualityLevel (weightedTotal (qualityScores c1pattern c1data c1ms)))
        (round2 (weightedTotal (qualityScores c1pattern c1data c1ms)))
        (qualityScores c1pattern c1data c1ms) :=
  ⟨by decide, (c1_quality_total_weighted_sum_in_bounds c1pattern c1data c1ms (by decide)).1⟩

/-- **C2**: the anomaly score is 0 when `total_records = 0`; otherwise it
equals `round(min(100, 100·(10·高 + 5·中 + 2·低)/(total·10)), 2)`; it always
lies in `[0, 100]` and is monotonically non-decreasing in the High-severity
count with the other counts and the record total fixed. -/
theorem c2_anomaly_score_formula_bounds_monotone (hi med lo t : Nat) :
    (t ≠ 0 → calculateAnomalyScore hi med lo t =
      round2 (min 100 (100 * (10 * (hi : ℚ) + 5 * (med : ℚ) + 2 * (lo : ℚ)) /
        ((t : ℚ) * 10)))) ∧
    calculateAnomalyScore hi med lo 0 = 0 ∧
    0 ≤ calculateAnomalyScore hi med lo t ∧
    calculateAnomalyScore hi med lo t ≤ 100 ∧
    (∀ hi2, hi ≤ hi2 →
      calculateAnomalyScore hi med lo t ≤ calculateAnomalyScore hi2 med lo t) := by
  refine ⟨?_, by simp [calculateAnomalyScore], ?_, ?_, ?_⟩
  · intro ht
    unfold calculateAnomalyScore
    rw [if_neg ht]
    have harg : ((hi : ℚ) * 10 + (med : ℚ) * 5 + (lo : ℚ) * 2) / ((t : ℚ) * 10) * 100 =
        100 * (10 * (hi : ℚ) + 5 * (med : ℚ) + 2 * (lo : ℚ)) / ((t : ℚ) * 10) := by
      ring
    simp only []
    rw [harg]
  · by_cases ht : t = 0
    · simp [calculateAnomalyScore, ht]
    · unfold calculateAnomalyScore
      rw [if_neg ht]
      refine round2_nonneg (le_min (by norm_num) ?_)
      positivity
  · by_cases ht : t = 0
    · simp [calculateAnomalyScore, ht]
    · unfold calculateAnomalyScore
      rw [if_neg ht]
      exact round2_le_hundred (min_le_left _ _)
  · intro hi2 hle
    by_cases ht : t = 0
    · simp [calculateAnomalyScore, ht]
    · unfold calculateAnomalyScore
      rw [if_neg ht, if_neg ht]
      have htp : (0 : ℚ) < (t : ℚ) * 10 := by
        have : 0 < t := Nat.pos_of_ne_zero ht
        positivity
      refine round2_le_round2 (min_le_min (le_refl 100) ?_)
      have hnum : ((hi : ℚ) * 10 + (med : ℚ) * 5 + (lo : ℚ) * 2) ≤
          ((hi2 : ℚ) * 10 + (med : ℚ) * 5 + (lo : ℚ) * 2) := by
        have : (hi : ℚ) ≤ (hi2 : ℚ) := by exact_mod_cast hle
        linarith
      exact mul_le_mul_of_nonneg_right
        ((div_le_div_iff_of_pos_right htp).mpr hnum) (by norm_num)

/-- Witness for C2 at concrete severity counts. -/
theorem c2_anomaly_score_witness :
    (10 : Nat) ≠ 0 ∧
    calculateAnomalyScore 1 0 0 10 =
      round2 (min 100 (100 * (10 * (1 : ℚ) + 5 * (0 : ℚ) + 2 * (0 : ℚ)) / ((10 : ℚ) * 10))) ∧
    calculateAnomalyScore 1 0 0 10 ≤ calculateAnomalyScore 2 0 0 10 :=
  ⟨by decide, (c2_anomaly_score_formula_bounds_monotone 1 0 0 10).1 (by decide),
    (c2_anomaly_score_formula_bounds_monotone 1 0 0 10).2.2.2.2 2 (by decide)⟩

/-- **C3**: amount-anomaly detection maps `classifyAmountAnomaly` over the
records; a record without code or with non-positive amount, or whose
benchmark key `(code[:2], type)` has no entry, is skipped; with benchmark
mean μ and std σ, an amount outside `[μ−3σ, μ+3σ]` is flagged
极端金额异常/高, an amount inside that band but outside `[μ−2σ, μ+2σ]` is
flagged 金额异常/中, and otherwise no amount anomaly is produced. -/
theorem c3_amount_anomaly_classification (bm : List (String × Benchmark)) (r : LedgerRecord) :
    (∀ data, detectAmountAnomalies data bm =
      data.filterMap (classifyAmountAnomaly bm)) ∧
    (r.code = "" ∨ r.amount ≤ 0 → classifyAmountAnomaly bm r = none) ∧
    (lookupKey (benchKey (r.code.take 2) r.itype) bm = none →
      classifyAmountAnomaly bm r = none) ∧
    (∀ b, r.code ≠ "" → 0 < r.amount →
      lookupKey (benchKey (r.code.take 2) r.itype) bm = some b →
      ((r.amount < b.mean - 3 * b.std ∨ r.amount > b.mean + 3 * b.std →
          classifyAmountAnomaly bm r =
            some ⟨toString r.id, .extremeAmount, .high⟩) ∧
        (¬(r.amount < b.mean - 3 * b.std ∨ r.amount > b.mean + 3 * b.std) →
          (r.amount < b.mean - 2 * b.std ∨ r.amount > b.mean + 2 * b.std) →
          classifyAmountAnomaly bm r =
            some ⟨toString r.id, .amountAnomaly, .medium⟩) ∧
        (¬(r.amount < b.mean - 3 * b.std ∨ r.amount > b.mean + 3 * b.std) →
          ¬(r.amount < b.mean - 2 * b.std ∨ r.amount > b.mean + 2 * b.std) →
          classifyAmountAnomaly bm r = none))) := by
  refine ⟨fun _ => rfl, ?_, ?_, ?_⟩
  · intro hskip
    simp only [classifyAmountAnomaly, if_pos hskip]
  · intro hlk
    by_cases hskip : r.code = "" ∨ r.amount ≤ 0
    · simp only [classifyAmountAnomaly, if_pos hskip]
    · simp only [classifyAmountAnomaly, if_neg hskip, hlk]
  · intro b hc ha hlk
    have hskip : ¬(r.code = "" ∨ r.amount ≤ 0) := by
      push_neg
      exact ⟨hc, by linarith⟩
    refine ⟨?_, ?_, ?_⟩
    · intro h3
      simp only [classifyAmountAnomaly, if_neg hskip, hlk, if_pos h3]
    · intro h3 h2
      simp only [classifyAmountAnomaly, if_neg hskip, hlk, if_neg h3, if_pos h2]
    · intro h3 h2
      simp only [classifyAmountAnomaly, if_neg hskip, hlk, if_neg h3, if_neg h2]

/-- Witness for C3: the concrete record is flagged 极端金额异常/高. -/
theorem c3_amount_anomaly_witness :
    classifyAmountAnomaly c3bench c3record =
      some ⟨toString c3record.id, .extremeAmount, .high⟩ := by
  have h1 : ("310105".take 2 : String) = "31" := by decide
  have h2 : ("31" ++ "_" ++ toString (2 : Nat) : String) = "31_2" := by decide
  have hlk : lookupKey (benchKey (c3record.code.take 2) c3record.itype) c3bench =
      some c3benchmark := by
    norm_num [lookupKey, benchKey, c3bench, c3benchmark, c3record, h1, h2]
  exact ((c3_amount_anomaly_classification c3bench c3record).2.2.2 c3benchmark (by decide)
    (by norm_num [c3record]) hlk).1 (by norm_num [c3benchmark, c3record])

/-- **C4**: every benchmark entry built by `get_statistical_benchmarks` has
标准差 = 0 (the SQL selects the constant 0), and against any benchmark dict
whose entries all carry std 0 the amount bounds degenerate to the single
point `[mean, mean]`: a coded positive-amount record with a benchmark is
flagged 极端金额异常/高 whenever its amount differs from the benchmark
mean, is not flagged at all when the amount equals the mean, and the
Medium 金额异常 branch is never taken. -/
theorem c4_degenerate_benchmarks_force_extreme :
    (∀ rows k b, (k, b) ∈ getStatisticalBenchmarks rows → b.std = 0) ∧
    (∀ (bm : List (String × Benchmark)) (r : LedgerRecord) (b : Benchmark),
      (∀ k b2, (k, b2) ∈ bm → b2.std = 0) →
      r.code ≠ "" → 0 < r.amount →
      lookupKey (benchKey (r.code.take 2) r.itype) bm = some b →
      ((r.amount ≠ b.mean → classifyAmountAnomaly bm r =
          some ⟨toString r.id, .extremeAmount, .high⟩) ∧
        (r.amount = b.mean → classifyAmountAnomaly bm r = none) ∧
        (∀ a, classifyAmountAnomaly bm r = some a →
          a.atype ≠ .amountAnomaly))) := by
  refine ⟨getStatisticalBenchmarks_std_zero, ?_⟩
  intro bm r b hstd hc ha hlk
  have hb0 : b.std = 0 := hstd _ _ (lookupKey_mem hlk)
  have hskip : ¬(r.code = "" ∨ r.amount ≤ 0) := by
    push_neg
    exact ⟨hc, by linarith⟩
  have hext : r.amount ≠ b.mean → classifyAmountAnomaly bm r =
      some ⟨toString r.id, .extremeAmount, .high⟩ := by
    intro hne
    have hcond : r.amount < b.mean - 3 * b.std ∨ r.amount > b.mean + 3 * b.std := by
      rw [hb0]
      simpa using lt_or_gt_of_ne hne
    simp only [classifyAmountAnomaly, if_neg hskip, hlk, if_pos hcond]
  have hnone : r.amount = b.mean → classifyAmountAnomaly bm r = none := by
    intro heq
    have hc3 : ¬(r.amount < b.mean - 3 * b.std ∨ r.amount > b.mean + 3 * b.std) := by
      rw [hb0, heq]
      simp
    have hc2 : ¬(r.amount < b.mean - 2 * b.std ∨ r.amount > b.mean + 2 * b.std) := by
      rw [hb0, heq]
      simp
    simp only [classifyAmountAnomaly, if_neg hskip, hlk, if_neg hc3, if_neg hc2]
  refine ⟨hext, hnone, ?_⟩
  intro a hcl
  by_cases heq : r.amount = b.mean
  · rw [hnone heq] at hcl
    exact absurd hcl (by simp)
  · rw [hext heq] at hcl
    simp only [Option.some.injEq] at hcl
    rw [← hcl]
    simp

/-- Witness for C4: the DAL-built benchmark has std 0 and forces the extreme flag. -/
theorem c4_degenerate_witness :
    lookupKey (benchKey (c4record.code.take 2) c4record.itype)
      (getStatisticalBenchmarks c4rows) = some c4benchmark ∧
    c4benchmark.std = 0 ∧
    classifyAmountAnomaly (getStatisticalBenchmarks c4rows) c4record =
      some ⟨toString c4record.id, .extremeAmount, .high⟩ := by
  have hlk : lookupKey (benchKey (c4record.code.take 2) c4record.itype)
      (getStatisticalBenchmarks c4rows) = some c4benchmark := by
    have h2 : ("310101".take 2 : String) = "31" := by decide
    have h3 : ("310102".take 2 : String) = "31" := by decide
    have h4 : ("310103".take 2 : String) = "31" := by decide
    have h5 : ("310104".take 2 : String) = "31" := by decide
    have h6 : ("310105".take 2 : String) = "31" := by decide
    have h7 : ("310106".take 2 : String) = "31" := by decide
    have h8 : ("310107".take 2 : String) = "31" := by decide
    have h9 : ("310108".take 2 : String) = "31" := by decide
    have h10 : ("310109".take 2 : String) = "31" := by decide
    have h11 : ("310110".take 2 : String) = "31" := by decide
    have h12 : ("310199".take 2 : String) = "31" := by decide
    norm_num [getStatisticalBenchmarks, qualifyingRows, dedupFirst, dedupFirstAux,
      benchKey, lookupKey, c4rows, c4record, c4benchmark, moneySum, moneyMin,
      moneyMax, List.filter, List.filterMap, h2, h3, h4, h5, h6, h7, h8, h9, h10,
      h11, h12, List.cons_ne_nil]
  refine ⟨hlk, ?_, ?_⟩
  · exact c4_degenerate_benchmarks_force_extreme.1 c4rows _ _ (lookupKey_mem hlk)
  · exact ((c4_degenerate_benchmarks_force_extreme.2 (getStatisticalBenchmarks c4rows) c4record c4benchmark
      (fun k b2 hm => c4_degenerate_benchmarks_force_extreme.1 c4rows k b2 hm) (by decide)
      (by norm_num [c4record]) hlk).1 (by norm_num [c4benchmark, c4record]))

/-- **C5**: the comprehensive assessment returns
`round(质量总评分 × 0.7 + (100 − 异常评分) × 0.3, 2)` with the level bands
identical to the quality-level bands applied to the unrounded composite;
in particular quality total 85 and anomaly score 10 give composite 86.5 in
the 良好 band. -/
theorem c5_comprehensive_assessment_formula (q : QualityResult) (a : AnomalyReport) :
    generateComprehensiveAssessment q a =
      (round2 (qualityTotalOf q * (7/10) + (100 - anomalyScoreOf a) * (3/10)),
        comprehensiveLevel (qualityTotalOf q * (7/10) + (100 - anomalyScoreOf a) * (3/10))) ∧
    (∀ x, comprehensiveLevel x = getQualityLevel x) ∧
    (generateComprehensiveAssessment c5qualityEx c5anomalyEx).1 = 173/2 ∧
    (generateComprehensiveAssessment c5qualityEx c5anomalyEx).2 = .good := by
  refine ⟨rfl, fun x => rfl, ?_, ?_⟩
  · norm_num [generateComprehensiveAssessment, qualityTotalOf, anomalyScoreOf,
      c5qualityEx, c5anomalyEx, round2]
  · norm_num [generateComprehensiveAssessment, qualityTotalOf, anomalyScoreOf,
      c5qualityEx, c5anomalyEx, comprehensiveLevel]

/-- **C6**: for a nonempty monthly summary, the continuity sub-score is
exactly 60 with a single month; with at least two months it equals
`max(60, 100 − min(40, missing_months × 5))`, where `missing_months` sums
`gap − 1` over consecutive sorted pairs with a whole-month gap above 1, and
it is 100 when there are no gaps; the three-month scenario with one absent
month scores exactly 95. -/
theorem c6_continuity_score_characterization (ms : List MonthlySummary) (h : ms ≠ []) :
    (ms.length = 1 → evaluateRecordingContinuity ms = 60) ∧
    (2 ≤ ms.length → evaluateRecordingContinuity ms =
      max 60 (100 - min 40 (((continuityGaps ms).sum : ℚ) * 5))) ∧
    (2 ≤ ms.length → (continuityGaps ms).sum = 0 →
      evaluateRecordingContinuity ms = 100) ∧
    evaluateRecordingContinuity continuityScenario = 95 := by
  refine ⟨?_, ?_, ?_, ?_⟩
  · intro h1
    unfold evaluateRecordingContinuity
    rw [if_neg h, if_pos h1]
  · intro h2
    have hne1 : ¬ms.length = 1 := by omega
    unfold evaluateRecordingContinuity
    rw [if_neg h, if_neg hne1]
    simp only []
    rcases hg : continuityGaps ms with _ | ⟨g, gs⟩
    · norm_num [min_eq_right, max_eq_right]
    · rw [if_neg (List.cons_ne_nil g gs)]
  · intro h2 hsum
    have hne1 : ¬ms.length = 1 := by omega
    have hnil : continuityGaps ms = [] := by
      rcases hg : continuityGaps ms with _ | ⟨g, gs⟩
      · rfl
      · exfalso
        have hmg : g ∈ continuityGaps ms := by
          rw [hg]
          exact List.mem_cons_self _ _
        have h1g : (1 : ℤ) ≤ g := continuityGaps_one_le hmg
        have hgs : (0 : ℤ) ≤ gs.sum := List.sum_nonneg fun x hx => by
          have hmx : x ∈ continuityGaps ms := by
            rw [hg]
            exact List.mem_cons_of_mem _ hx
          exact le_trans (by norm_num) (continuityGaps_one_le hmx)
        rw [hg] at hsum
        simp only [List.sum_cons] at hsum
        omega
    unfold evaluateRecordingContinuity
    rw [if_neg h, if_neg hne1]
    simp only []
    rw [if_pos hnil]
  · norm_num [evaluateRecordingContinuity, continuityGaps, sortMonthly, monthlyLE,
      monthDiff, List.insertionSort, List.orderedInsert, continuityScenario,
      List.zip, List.zipWith, List.cons_ne_nil, Option.some_ne_none,
      List.filterMap_cons]

/-- Witness for C6: the three-month scenario scores 95. -/
theorem c6_continuity_witness :
    continuityScenario ≠ [] ∧ evaluateRecordingContinuity continuityScenario = 95 :=
  ⟨by decide, (c6_continuity_score_characterization continuityScenario (by decide)).2.2.2⟩

/-- **C7**: the batch quality evaluation never fails because of one bad
household — a per-household evaluation returning `none` (a caught and
logged exception) is simply omitted — so the result dict has at most as
many entries as the input code list, every key of the result is a member
of the input list with a successful evaluation, and a household whose
evaluation raised is absent from the result. -/
theorem c7_batch_isolation_and_keys (f : String → Option QualityResult) (codes : List String) :
    (evaluateBatchQuality f codes).length ≤ codes.length ∧
    (∀ k v, (k, v) ∈ evaluateBatchQuality f codes → k ∈ codes ∧ f k = some v) ∧
    (∀ k v, f k = none → (k, v) ∈ evaluateBatchQuality f codes → False) := by
  refine ⟨?_, ?_, ?_⟩
  · simpa using batchCollect_length_aux f codes []
  · intro k v h
    rcases batchCollect_mem_aux f codes [] k v h with h1 | h1
    · exact absurd h1 (by simp)
    · exact h1
  · intro k v hnone h
    rcases batchCollect_mem_aux f codes [] k v h with h1 | h1
    · exact absurd h1 (by simp)
    · rw [hnone] at h1
      exact absurd h1.2 (by simp)

/-- Witness for C7 at a concrete evaluator and code list. -/
theorem c7_batch_witness :
    (evaluateBatchQuality c7f ["A", "B"]).length ≤ 2 ∧
    ("A" ∈ ["A", "B"] ∧ c7f "A" = some .insufficientData) :=
  ⟨(c7_batch_isolation_and_keys c7f ["A", "B"]).1,
    (c7_batch_isolation_and_keys c7f ["A", "B"]).2.1 "A" .insufficientData (by decide)⟩

/-- **C8**: a household with zero matching ledger records in the window
yields the empty/insufficient-data profile (the embedding is a total
function, so no exception can be raised). -/
theorem c8_empty_profile_on_no_records (basic : Option BasicInfo) (cs : List CategorySummary)
    (ms : List MonthlySummary) :
    generateHouseholdProfile basic [] cs ms = .empty := by
  cases basic <;> simp [generateHouseholdProfile]

/-- **C9** counterexample: on a concrete five-record set whose
integer-amount ratio is exactly 0.8, the integer-amount rule of the
Consistency sub-score deducts 15 points (the `> 0.6` branch fires), so the
score is 85, not 100 — the claimed "penalty of 0 from the integer-amount
rule" fails even though no duplicate or round-number deduction applies. -/
theorem c9_integer_share_boundary_counterexample :
    integerShare consistencyExample = 4/5 ∧
    integerSharePenalty (integerShare consistencyExample) = 15 ∧
    duplicateCount consistencyExample = 0 ∧
    evaluateRecordingConsistency consistencyExample = 85 := by
  have hshare : integerShare consistencyExample = 4/5 := by
    norm_num [integerShare, countIntegerAmounts, isIntegerAmount, consistencyExample,
      List.filter]
  refine ⟨hshare, ?_, ?_, ?_⟩
  · rw [hshare]
    norm_num [integerSharePenalty]
  · norm_num [duplicateCount, duplicateCountAux, recKey, consistencyExample]
  · norm_num [evaluateRecordingConsistency, integerSharePenalty, integerShare,
      countIntegerAmounts, isIntegerAmount, duplicateCount, duplicateCountAux, recKey,
      commonAmounts, consistencyExample, List.filter, List.cons_ne_nil]

/-- **C9** (amended): for a record set whose integer-amount ratio is
exactly 0.8, the strict `> 0.8` branch of the Consistency integer-amount
rule is not triggered — the `> 0.6` branch deducts 15 instead of 25 — and
the pattern-anomaly detector's excess-integer-amounts rule (strict
`> 0.8`) produces no anomaly. -/
theorem c9_integer_share_boundary_amended (data : List LedgerRecord) (h : integerShare data = 4/5) :
    integerSharePenalty (integerShare data) = 15 ∧
    ∀ a ∈ detectPatternAnomalies data, a.atype ≠ .excessIntegerAmounts := by
  constructor
  · rw [h]
    norm_num [integerSharePenalty]
  · intro a ha
    unfold detectPatternAnomalies at ha
    by_cases hd : data = []
    · rw [if_pos hd] at ha
      exact absurd ha (by simp)
    · rw [if_neg hd] at ha
      simp only [] at ha
      have hint : ¬integerShare data > 4/5 := by
        rw [h]
        norm_num
      rw [if_neg hint] at ha
      simp only [List.nil_append, List.mem_append] at ha
      rcases ha with (ha | ha) | ha
      · split_ifs at ha with hc
        · simp only [List.mem_singleton] at ha
          rw [ha]
          simp
        · exact absurd ha (by simp)
      · rw [List.mem_filterMap] at ha
        obtain ⟨k, _, hk⟩ := ha
        split at hk
        · simp only [Option.some.injEq] at hk
          rw [← hk]
          simp
        · exact absurd hk (by simp)
      · rw [List.mem_filterMap] at ha
        obtain ⟨d, _, hd2⟩ := ha
        split_ifs at hd2
        simp only [Option.some.injEq] at hd2
        rw [← hd2]
        simp

/-- Witness for C9 (amended) at the boundary record set. -/
theorem c9_integer_share_boundary_witness :
    integerSharePenalty (integerShare consistencyExample) = 15 ∧
    ((detectPatternAnomalies consistencyExample).all fun a =>
      decide (a.atype ≠ AnomalyType.excessIntegerAmounts)) = true := by
  have hshare : integerShare consistencyExample = 4/5 := by
    norm_num [integerShare, countIntegerAmounts, isIntegerAmount, consistencyExample,
      List.filter]
  have h := c9_integer_share_boundary_amended consistencyExample hshare
  refine ⟨h.1, ?_⟩
  rw [List.all_eq_true]
  intro a ha
  simpa using h.2 a ha

/-- **C10**: the three single-household engines are pure functions of the
fetched data snapshot — two invocations on identical snapshots return
identical profiles, anomaly reports and quality results (the embedding as
total functions is possible because the source engines draw no randomness
and keep no mutable state across calls). -/
theorem c10_engines_deterministic (s1 s2 : Snapshot) (h : s1 = s2) :
    profileOfSnapshot s1 = profileOfSnapshot s2 ∧
    anomaliesOfSnapshot s1 = anomaliesOfSnapshot s2 ∧
    qualityOfSnapshot s1 = qualityOfSnapshot s2 := by
  subst h
  exact ⟨rfl, rfl, rfl⟩

/-- Witness for C10 at a concrete snapshot. -/
theorem c10_engines_deterministic_witness :
    profileOfSnapshot c10snapshot = profileOfSnapshot c10snapshot ∧
    anomaliesOfSnapshot c10snapshot = anomaliesOfSnapshot c10snapshot ∧
    qualityOfSnapshot c10snapshot = qualityOfSnapshot c10snapshot :=
  c10_engines_deterministic c10snapshot c10snapshot rfl

end Zhdclite
